import Mathlib

/-
Verification development for `highresmerge.py`, a raster merge pipeline for
tsunami simulation terrain (crop, resample, mask, composite).

Modelling conventions:
- Text files that the Python code reads wholesalely as whitespace-separated
  tokens are modelled as `List (List String)` (`overlay`) or `List (List ℚ)`
  (`wipeout_topo`, where only the numeric value of each token matters).
- The file system is modelled as a predicate `FS : String → Bool` telling
  whether a path already exists; Python's `open(path, 'x')` is `openExclusive`
  and `np.savetxt` (which opens its target in write mode and overwrites) is
  `savetxt`.
- A Python `IndexError` (out-of-range list subscript) is modelled by `Option`:
  `none` means the operation aborts with an exception.
- Machine floats are modelled by exact rationals `ℚ`; Python's `int(float(s))`
  truncation toward zero is `truncTowardZero`.
-/

namespace HighResMerge

/-- The file system, as seen by the pipeline: whether a path already exists. -/
abbrev FS := String → Bool

/-- Python `open(path, 'x')`: exclusive creation, raises `FileExistsError`
when the path already exists.  Used by `overlay` (line 120) and
`wipeout_topo` (line 142). -/
def openExclusive (fs : FS) (path : String) : Except String Unit :=
  if fs path then Except.error "FileExistsError" else Except.ok ()

/-- `np.savetxt` (line 212) opens its target in write mode: it never fails on
an existing path, it silently overwrites. -/
def savetxt (_fs : FS) (_path : String) : Except String Unit :=
  Except.ok ()

/-- Cell lookup in a list-of-rows grid: `g[i][j]`, `none` when out of range
(a Python `IndexError`). -/
def cellAt {α : Type} (g : List (List α)) (i j : ℕ) : Option α :=
  g[i]?.bind fun row => row[j]?

/-- Two grids have the same shape: same row count and same length row by row. -/
def sameShape {α β : Type} (g : List (List α)) (h : List (List β)) : Prop :=
  g.map List.length = h.map List.length

instance {α β : Type} (g : List (List α)) (h : List (List β)) :
    Decidable (sameShape g h) := by
  unfold sameShape; infer_instance

/- ------------------------------------------------------------------
   overlay (lines 93-124): merge the topo grid with the bathy grid.
   Lines 114-117:
     for i in range(len(data_topo)):
       for j in range(len(data_topo[i])):
         if data_topo[i][j] == nan_value:
           data_topo[i][j] = data_bathy[i][j+20]
   Note the string comparison with `nan_value` and the fixed column
   offset of 20 in the bathymetry subscript.
   ------------------------------------------------------------------ -/

/-- One cell of the overlay loop body (lines 116-117): a topo token equal to
the sentinel string is replaced by the bathy token at column `j + 20` of the
same row; that subscript may raise `IndexError` (`none`). -/
def overlayCellM (bathy : List (List String)) (nan : String) (i j : ℕ)
    (v : String) : Option String :=
  if v = nan then cellAt bathy i (j + 20) else some v

/-- The inner loop over one topo row, `j` counting from the given start;
aborts (`none`) as soon as one cell raises. -/
def overlayRowM (bathy : List (List String)) (nan : String) (i : ℕ) :
    ℕ → List String → Option (List String)
  | _, [] => some []
  | j, v :: vs =>
    (overlayCellM bathy nan i j v).bind fun w =>
      (overlayRowM bathy nan i (j + 1) vs).map fun ws => w :: ws

/-- The outer loop over the topo rows, `i` counting from the given start. -/
def overlayRowsM (bathy : List (List String)) (nan : String) :
    ℕ → List (List String) → Option (List (List String))
  | _, [] => some []
  | i, row :: rows =>
    (overlayRowM bathy nan i 0 row).bind fun r =>
      (overlayRowsM bathy nan (i + 1) rows).map fun rs => r :: rs

/-- The full merge loop of `overlay` (lines 114-117).  There is no shape
check anywhere in `overlay`: the two prints of the shapes (lines 109, 112)
are informational only. -/
def overlayGridM (topo bathy : List (List String)) (nan : String) :
    Option (List (List String)) :=
  overlayRowsM bathy nan 0 topo

/-- The whole of `overlay`: run the merge loop (an `IndexError` aborts),
then open the output file with mode `'x'` (line 120) and write the merged
grid. -/
def overlay (fs : FS) (topo bathy : List (List String)) (nan outfile : String) :
    Except String (List (List String)) :=
  match overlayGridM topo bathy nan with
  | none => Except.error "IndexError"
  | some merged =>
    match openExclusive fs outfile with
    | Except.ok _ => Except.ok merged
    | Except.error e => Except.error e

/- ------------------------------------------------------------------
   wipeout_topo (lines 126-146).  Lines 138-141:
     for i in range(len(data[7:])):
       for j in range(len(data[i+7])):
         if float(data[i+7][j]) >= 0:
           data[i+7][j] = val
   Rows 0..6 of the token grid are never scanned.
   ------------------------------------------------------------------ -/

/-- The masking loop of `wipeout_topo` (lines 138-141): rows `0..6` are left
untouched; in every later row each cell with value `>= 0` becomes `val`. -/
def wipeoutGrid (data : List (List ℚ)) (val : ℚ) : List (List ℚ) :=
  data.take 7 ++
    (data.drop 7).map (fun row => row.map fun q => if 0 ≤ q then val else q)

/-- The whole of `wipeout_topo`: mask, then open the output file with mode
`'x'` (line 142) and write. -/
def wipeout_topo (fs : FS) (data : List (List ℚ)) (val : ℚ) (outfile : String) :
    Except String (List (List ℚ)) :=
  match openExclusive fs outfile with
  | Except.ok _ => Except.ok (wipeoutGrid data val)
  | Except.error e => Except.error e

/- ------------------------------------------------------------------
   interpolate (lines 148-212).
   ------------------------------------------------------------------ -/

/-- The six-line tt3 header kept by `interpolate` (lines 178, 206-210): the
declared column count, the declared row count, and the remaining four lines
(xlower, ylower, cellsize, nodata), kept verbatim as text. -/
structure Header where
  ncols : ℕ
  nrows : ℕ
  rest : List String
deriving DecidableEq

/-- A raster as `interpolate` sees it: the header lines and the numeric
token grid (`rows × cols` values; `tokens` gives the value of the token at
a row/column index). -/
structure Raster where
  header : Header
  rows : ℕ
  cols : ℕ
  tokens : ℕ → ℕ → ℚ

/-- A (header, grid) pair is consistent when the declared counts match the
grid's actual dimensions. -/
def consistent (r : Raster) : Prop :=
  r.header.nrows = r.rows ∧ r.header.ncols = r.cols

instance (r : Raster) : Decidable (consistent r) := by
  unfold consistent; infer_instance

/-- Python `int(float(s))` (line 181): the numeric value of a token,
truncated toward zero to an integer.  `Int.tdiv` is T-division (rounds
toward zero), matching Python's `int()` on a float. -/
def truncTowardZero (q : ℚ) : ℤ :=
  Int.tdiv q.num (q.den : ℤ)

/-- Python `res_in // res_out` (line 186): floor division of the two
resolutions, giving the integer scale factor. -/
def interpScale (res_in res_out : ℤ) : ℕ :=
  (Int.fdiv res_in res_out).toNat

/-- Position of the `k`-th of the `n` sample points laid down by
`np.linspace(0, n, n)` (lines 196-197): `n` evenly spaced points from `0`
to `n` inclusive, so the `k`-th sits at `k·n/(n-1)`. -/
def samplePos (n k : ℕ) : ℚ :=
  (k : ℚ) * n / ((n : ℚ) - 1)

/-- Position of the `m`-th of the `total` query points laid down by
`np.mgrid[0:n:total*1j]` (line 202): `total` evenly spaced points from `0`
to `n` inclusive, so the `m`-th sits at `m·n/(total-1)`. -/
def queryPos (n total m : ℕ) : ℚ :=
  (m : ℚ) * n / ((total : ℚ) - 1)

/-- Inverse of the sample spacing: maps a position `p ∈ [0, n]` to lattice
coordinates in `[0, n-1]`, so that the `k`-th sample point maps to `k`. -/
def toIndex (n : ℕ) (p : ℚ) : ℚ :=
  p * ((n : ℚ) - 1) / (n : ℚ)

/-- The lattice cell a coordinate falls in, clamped to `n - 2` so the cell
`[i0, i0+1]` stays inside the `n` samples. -/
def cellBase (n : ℕ) (s : ℚ) : ℕ :=
  min (Int.toNat ⌊s⌋) (n - 2)

/-- Piecewise-linear interpolation on the unit lattice: the idealized
(exact-rational) semantics of `scipy.interpolate.griddata(method="linear")`
over the regular lattice of sample points built in lines 195-198.  Its
Delaunay triangulation splits every lattice square into two triangles along
a diagonal; barycentric-linear interpolation inside each triangle gives the
formulas below.  The choice of diagonal does not affect values at lattice
nodes. -/
def triInterp (d : ℕ → ℕ → ℚ) (x y : ℕ) (s t : ℚ) : ℚ :=
  if (s - (cellBase x s : ℕ)) + (t - (cellBase y t : ℕ)) ≤ 1 then
    d (cellBase x s) (cellBase y t)
      + (s - (cellBase x s : ℕ)) *
          (d (cellBase x s + 1) (cellBase y t) - d (cellBase x s) (cellBase y t))
      + (t - (cellBase y t : ℕ)) *
          (d (cellBase x s) (cellBase y t + 1) - d (cellBase x s) (cellBase y t))
  else
    d (cellBase x s + 1) (cellBase y t + 1)
      + (1 - (s - (cellBase x s : ℕ))) *
          (d (cellBase x s) (cellBase y t + 1) - d (cellBase x s + 1) (cellBase y t + 1))
      + (1 - (t - (cellBase y t : ℕ))) *
          (d (cellBase x s + 1) (cellBase y t) - d (cellBase x s + 1) (cellBase y t + 1))

/-- `griddata(points, values, (grid_x, grid_y), method="linear")` (line 204)
evaluated at one query position: transform each axis to lattice coordinates
(the sample points of lines 195-198 sit at `samplePos`, which `toIndex`
carries to the integer lattice; the per-axis map is affine, so it preserves
the piecewise-linear interpolant), then interpolate on the lattice. -/
def griddataLinear (d : ℕ → ℕ → ℚ) (x y : ℕ) (p q : ℚ) : ℚ :=
  triInterp d x y (toIndex x p) (toIndex y q)

/-- The raster built by `interpolate` after validation (lines 174-210):
tokens are parsed with `int(float(.))` (line 181), the scale is
`res_in // res_out` (line 186), the query grid is `x*scale × y*scale`
points spanning the sample range (line 202), and the output header is the
input header verbatim (lines 206-210). -/
def interpolateRaster (r : Raster) (res_in res_out : ℤ) : Raster :=
  { header := r.header
    rows := r.rows * interpScale res_in res_out
    cols := r.cols * interpScale res_in res_out
    tokens := fun m n =>
      griddataLinear (fun i j => ((truncTowardZero (r.tokens i j) : ℤ) : ℚ))
        r.rows r.cols
        (queryPos r.rows (r.rows * interpScale res_in res_out) m)
        (queryPos r.cols (r.cols * interpScale res_in res_out) n) }

/-- The whole of `interpolate` (lines 148-212): validate the resolutions
(lines 163-172; with integer arguments the `type(...) != int` check of line
164 never fires), build the interpolated raster, and write it out with
`np.savetxt` (line 212), which overwrites silently. -/
def interpolate (fs : FS) (r : Raster) (res_in res_out : ℤ)
    (out_filename : String) : Except String Raster :=
  if res_in < 1 ∨ res_out < 1 then
    Except.error "Invalid resolution."
  else if res_in < res_out then
    Except.error "resolution_in must be a larger integer than resolution_out."
  else
    (savetxt fs out_filename).map fun _ => interpolateRaster r res_in res_out

/- ------------------------------------------------------------------
   slice_region (lines 16-64).  The two crops (lines 47-48):
     bathy_small = bathy_file.crop(filter_region=filter)
     topo_small = topo_file.crop(filter_region=bathy_small.extent)
   `crop` and `.extent` live in clawpack's topotools (an external
   dependency), so they are abstract parameters here; only the data
   flow between the two calls belongs to this repository.
   ------------------------------------------------------------------ -/

/-- The cropping stage of `slice_region` (lines 47-48): crop the bathymetry
to the requested filter coordinates, then crop the topography to the extent
of the already-cropped bathymetry.  Returns `(bathy_small, topo_small)`. -/
def slice_region {R B : Type} (crop : R → B → R) (extent : R → B)
    (bathy_file topo_file : R) (filter : B) : R × R :=
  (crop bathy_file filter, crop topo_file (extent (crop bathy_file filter)))

/- ------------------------------------------------------------------
   Concrete inputs used to exercise the pipeline.
   ------------------------------------------------------------------ -/

/-- A file system with no pre-existing files. -/
def fsEmpty : FS := fun _ => false

/-- A file system on which every path already exists. -/
def fsFull : FS := fun _ => true

/-- A tiny consistent 2×2 raster: header declares 2 rows and 2 columns. -/
def r0 : Raster :=
  { header := { ncols := 2, nrows := 2, rest := [] }
    rows := 2
    cols := 2
    tokens := fun i j => (i : ℚ) * 10 + j }

/-- Like `r0` but every token carries the fractional value `3/2`. -/
def rHalf : Raster :=
  { header := { ncols := 2, nrows := 2, rest := [] }
    rows := 2
    cols := 2
    tokens := fun _ _ => 3 / 2 }

/-- Like `rHalf` with every token already the truncated value `1`. -/
def rOne : Raster :=
  { header := { ncols := 2, nrows := 2, rest := [] }
    rows := 2
    cols := 2
    tokens := fun _ _ => 1 }

/-- A topography token grid of one row of 21 tokens with the sentinel at
cell (0, 0): co-registered (same shape) with `bathyEx`. -/
def topoEx : List (List String) := ["N" :: List.replicate 20 "a"]

/-- A bathymetry token grid of one row of 21 tokens, co-registered with
`topoEx`; its column 0 and column 20 values differ. -/
def bathyEx : List (List String) := [List.replicate 20 "z" ++ ["w"]]

/-- The grid the overlay merge loop produces on `topoEx`/`bathyEx`: the
sentinel cell (0, 0) received `bathyEx`'s column-20 token "w". -/
def outEx : List (List String) := ["w" :: List.replicate 20 "a"]

/-- Eight single-cell rows, all of value 1: rows 0-6 sit where the six
header lines and the first data row of a tt3 file would be. -/
def dataEx : List (List ℚ) := List.replicate 7 [1] ++ [[1]]

/- ==================================================================
   Theorems.  Helper lemmas first, then one theorem per claim.
   ================================================================== -/

/-- If one overlay row succeeds, every input token of that row was mapped
through `overlayCellM` at its absolute column index. -/
theorem overlayRowM_some_get (bathy : List (List String)) (nan : String)
    (i : ℕ) (vs : List String) :
    ∀ (j0 : ℕ) (out : List String) (jr : ℕ) (v : String),
      overlayRowM bathy nan i j0 vs = some out → vs[jr]? = some v →
      ∃ w, overlayCellM bathy nan i (j0 + jr) v = some w ∧ out[jr]? = some w := by
  induction vs with
  | nil => intro j0 out jr v h hv; simp at hv
  | cons a vs ih =>
    intro j0 out jr v h hv
    cases h1 : overlayCellM bathy nan i j0 a with
    | none => simp [overlayRowM, h1] at h
    | some w =>
      cases h2 : overlayRowM bathy nan i (j0 + 1) vs with
      | none => simp [overlayRowM, h1, h2] at h
      | some ws =>
        simp only [overlayRowM, h1, h2, Option.some_bind, Option.map_some'] at h
        cases h
        cases jr with
        | zero =>
          simp only [List.getElem?_cons_zero] at hv
          cases hv
          exact ⟨w, by simpa using h1, by simp⟩
        | succ jr =>
          simp only [List.getElem?_cons_succ] at hv
          obtain ⟨w', hw1, hw2⟩ := ih (j0 + 1) ws jr v h2 hv
          refine ⟨w', ?_, by simpa using hw2⟩
          rwa [show j0 + (jr + 1) = j0 + 1 + jr from by omega]

/-- If the whole overlay loop succeeds, every input row was mapped through
`overlayRowM` at its absolute row index. -/
theorem overlayRowsM_some_get (bathy : List (List String)) (nan : String)
    (rows : List (List String)) :
    ∀ (i0 : ℕ) (out : List (List String)) (ir : ℕ) (row : List String),
      overlayRowsM bathy nan i0 rows = some out → rows[ir]? = some row →
      ∃ r, overlayRowM bathy nan (i0 + ir) 0 row = some r ∧ out[ir]? = some r := by
  induction rows with
  | nil => intro i0 out ir row h hrow; simp at hrow
  | cons a rows ih =>
    intro i0 out ir row h hrow
    cases h1 : overlayRowM bathy nan i0 0 a with
    | none => simp [overlayRowsM, h1] at h
    | some r =>
      cases h2 : overlayRowsM bathy nan (i0 + 1) rows with
      | none => simp [overlayRowsM, h1, h2] at h
      | some rs =>
        simp only [overlayRowsM, h1, h2, Option.some_bind, Option.map_some'] at h
        cases h
        cases ir with
        | zero =>
          simp only [List.getElem?_cons_zero] at hrow
          cases hrow
          exact ⟨r, by simpa using h1, by simp⟩
        | succ ir =>
          simp only [List.getElem?_cons_succ] at hrow
          obtain ⟨r', hr1, hr2⟩ := ih (i0 + 1) rs ir row h2 hrow
          refine ⟨r', ?_, by simpa using hr2⟩
          rwa [show i0 + (ir + 1) = i0 + 1 + ir from by omega]

/-- C1 (amended): for every co-registered (same-shape) primary/secondary
pair, when the merge loop of `overlay` completes, the output cell at
(i, j) is the bathymetry (secondary) token at (i, j + 20) — not at
(i, j) — whenever the topography (primary) token at (i, j) equals the
sentinel string, and is the topography token itself otherwise. -/
theorem overlay_merge_cell_law (topo bathy : List (List String)) (nan : String)
    (out : List (List String)) (i j : ℕ) (v : String)
    (hshape : sameShape topo bathy)
    (hout : overlayGridM topo bathy nan = some out)
    (hv : cellAt topo i j = some v) :
    (v = nan → cellAt out i j = cellAt bathy i (j + 20)) ∧
    (v ≠ nan → cellAt out i j = some v) := by
  obtain ⟨row, hrow, hcell⟩ := Option.bind_eq_some.mp hv
  obtain ⟨r, hr1, hr2⟩ :=
    overlayRowsM_some_get bathy nan topo 0 out i row hout (by simpa using hrow)
  rw [Nat.zero_add] at hr1
  obtain ⟨w, hw1, hw2⟩ :=
    overlayRowM_some_get bathy nan i row 0 r j v hr1 hcell
  have hcw : overlayCellM bathy nan i j v = some w := by simpa using hw1
  have hout' : cellAt out i j = some w := by
    simp [cellAt, hr2, hw2]
  constructor
  · intro hnan
    rw [hout']
    unfold overlayCellM at hcw
    rw [if_pos hnan] at hcw
    exact hcw.symm
  · intro hnan
    rw [hout']
    unfold overlayCellM at hcw
    rw [if_neg hnan] at hcw
    exact hcw.symm

/-- C1 (amended) witness: on the co-registered pair `topoEx`/`bathyEx`,
with the sentinel at (0, 0), the merged cell (0, 0) is `bathyEx`'s token
at column 20. -/
theorem overlay_merge_cell_law_witness :
    (("N" : String) = "N" →
      cellAt outEx 0 0 = cellAt bathyEx 0 (0 + 20)) ∧
    (("N" : String) ≠ "N" → cellAt outEx 0 0 = some "N") :=
  overlay_merge_cell_law topoEx bathyEx "N" outEx 0 0 "N"
    (by decide) (by decide) (by decide)

/-- C1 counterexample: the claim says that for every co-registered pair the
merged cell (i, j) equals the secondary cell at the same position (i, j).
`topoEx` and `bathyEx` are co-registered (both 1×21); the merge completes,
(0, 0) of the primary is the sentinel, yet the output cell (0, 0) is
"w" = `bathyEx[0][20]`, different from `bathyEx[0][0]` = "z". -/
theorem overlay_merge_cell_counterexample :
    sameShape topoEx bathyEx ∧
    overlayGridM topoEx bathyEx "N" = some outEx ∧
    cellAt topoEx 0 0 = some "N" ∧
    cellAt bathyEx 0 0 = some "z" ∧
    cellAt outEx 0 0 = some "w" ∧
    cellAt outEx 0 0 ≠ cellAt bathyEx 0 0 := by
  refine ⟨by decide, by decide, by decide, by decide, by decide, by decide⟩

/-- One overlay cell succeeds exactly when the sentinel case can fetch its
offset bathymetry token. -/
theorem overlayCellM_isSome_iff (bathy : List (List String)) (nan : String)
    (i j : ℕ) (v : String) :
    (overlayCellM bathy nan i j v).isSome ↔
      (v = nan → (cellAt bathy i (j + 20)).isSome) := by
  unfold overlayCellM
  split_ifs with h <;> simp [h]

/-- One overlay row succeeds exactly when each of its cells does. -/
theorem overlayRowM_isSome_iff (bathy : List (List String)) (nan : String)
    (i : ℕ) (vs : List String) :
    ∀ j0 : ℕ, (overlayRowM bathy nan i j0 vs).isSome ↔
      ∀ jr v, vs[jr]? = some v →
        (overlayCellM bathy nan i (j0 + jr) v).isSome := by
  induction vs with
  | nil => intro j0; simp [overlayRowM]
  | cons a vs ih =>
    intro j0
    constructor
    · intro h jr v hv
      cases h1 : overlayCellM bathy nan i j0 a with
      | none => simp [overlayRowM, h1] at h
      | some w =>
        cases h2 : overlayRowM bathy nan i (j0 + 1) vs with
        | none => simp [overlayRowM, h1, h2] at h
        | some ws =>
          cases jr with
          | zero =>
            simp only [List.getElem?_cons_zero] at hv
            cases hv
            simp [h1]
          | succ jr =>
            simp only [List.getElem?_cons_succ] at hv
            have := (ih (j0 + 1)).mp (by simp [h2]) jr v hv
            rwa [show j0 + (jr + 1) = j0 + 1 + jr from by omega]
    · intro h
      have h1 : (overlayCellM bathy nan i j0 a).isSome := by
        simpa using h 0 a (by simp)
      have h2 : (overlayRowM bathy nan i (j0 + 1) vs).isSome := by
        refine (ih (j0 + 1)).mpr fun jr v hv => ?_
        have := h (jr + 1) v (by simpa using hv)
        rwa [show j0 + (jr + 1) = j0 + 1 + jr from by omega] at this
      obtain ⟨w, hw⟩ := Option.isSome_iff_exists.mp h1
      obtain ⟨ws, hws⟩ := Option.isSome_iff_exists.mp h2
      simp [overlayRowM, hw, hws]

/-- The whole overlay loop succeeds exactly when each of its rows does. -/
theorem overlayRowsM_isSome_iff (bathy : List (List String)) (nan : String)
    (rows : List (List String)) :
    ∀ i0 : ℕ, (overlayRowsM bathy nan i0 rows).isSome ↔
      ∀ ir row, rows[ir]? = some row →
        (overlayRowM bathy nan (i0 + ir) 0 row).isSome := by
  induction rows with
  | nil => intro i0; simp [overlayRowsM]
  | cons a rows ih =>
    intro i0
    constructor
    · intro h ir row hrow
      cases h1 : overlayRowM bathy nan i0 0 a with
      | none => simp [overlayRowsM, h1] at h
      | some r =>
        cases h2 : overlayRowsM bathy nan (i0 + 1) rows with
        | none => simp [overlayRowsM, h1, h2] at h
        | some rs =>
          cases ir with
          | zero =>
            simp only [List.getElem?_cons_zero] at hrow
            cases hrow
            simp [h1]
          | succ ir =>
            simp only [List.getElem?_cons_succ] at hrow
            have := (ih (i0 + 1)).mp (by simp [h2]) ir row hrow
            rwa [show i0 + (ir + 1) = i0 + 1 + ir from by omega]
    · intro h
      have h1 : (overlayRowM bathy nan i0 0 a).isSome := by
        simpa using h 0 a (by simp)
      have h2 : (overlayRowsM bathy nan (i0 + 1) rows).isSome := by
        refine (ih (i0 + 1)).mpr fun ir row hrow => ?_
        have := h (ir + 1) row (by simpa using hrow)
        rwa [show i0 + (ir + 1) = i0 + 1 + ir from by omega] at this
      obtain ⟨r, hr⟩ := Option.isSome_iff_exists.mp h1
      obtain ⟨rs, hrs⟩ := Option.isSome_iff_exists.mp h2
      simp [overlayRowsM, hr, hrs]

/-- C8 (amended): `overlay` performs no shape validation at all.  Its merge
loop completes exactly when every sentinel cell (i, j) of the primary grid
has a secondary token at row i, column j + 20; equality of the two grids'
shapes is neither required for success nor sufficient to avoid failure. -/
theorem overlay_success_iff (topo bathy : List (List String)) (nan : String) :
    (overlayGridM topo bathy nan).isSome ↔
      ∀ i j v, cellAt topo i j = some v → v = nan →
        (cellAt bathy i (j + 20)).isSome := by
  unfold overlayGridM
  rw [overlayRowsM_isSome_iff]
  constructor
  · intro h i j v hv hnan
    obtain ⟨row, hrow, hcell⟩ := Option.bind_eq_some.mp hv
    have hrowSome := h i row (by simpa using hrow)
    rw [Nat.zero_add, overlayRowM_isSome_iff] at hrowSome
    have := hrowSome j v hcell
    rw [Nat.zero_add, overlayCellM_isSome_iff] at this
    exact this hnan
  · intro h ir row hrow
    rw [Nat.zero_add, overlayRowM_isSome_iff]
    intro jr v hv
    rw [Nat.zero_add, overlayCellM_isSome_iff]
    intro hnan
    exact h ir jr v (by simp [cellAt, hrow, hv]) hnan

/-- C8 counterexample: the claim says `overlay` fails with a shape-mismatch
error whenever its inputs have different shapes and succeeds on same-shape
inputs.  Both halves fail: a 1×1 primary merges fine against a 1×2
secondary (no error despite the shape mismatch), while a same-shape 1×1
pair containing the sentinel aborts with an index error. -/
theorem overlay_shape_counterexample :
    overlayGridM [["a"]] [["x", "y"]] "N" = some [["a"]] ∧
    ¬ sameShape [["a"]] [["x", "y"]] ∧
    overlayGridM [["N"]] [["x"]] "N" = none ∧
    sameShape [["N"]] [["x"]] := by
  refine ⟨by decide, by decide, by decide, by decide⟩

/-- C2 (amended): the masking loop of `wipeout_topo` rewrites a cell to the
replacement value exactly when its row index is at least 7 and its value is
at least 0; every cell in rows 0-6 — and every negative cell — passes
through unchanged. -/
theorem wipeout_mask_law (data : List (List ℚ)) (val : ℚ) (i j : ℕ) :
    cellAt (wipeoutGrid data val) i j =
      (cellAt data i j).map fun q => if 7 ≤ i ∧ 0 ≤ q then val else q := by
  unfold wipeoutGrid cellAt
  rcases Nat.lt_or_ge i 7 with hi | hi
  · rcases Nat.lt_or_ge i data.length with hlen | hlen
    · rw [List.getElem?_append_left
        (by simp only [List.length_take]; omega), List.getElem?_take_of_lt hi]
      cases hrow : data[i]? with
      | none => simp
      | some row =>
        cases hcell : row[j]? with
        | none => simp [hcell]
        | some q => simp [hcell, show ¬ 7 ≤ i from by omega]
    · rw [List.getElem?_append_right
        (by simp only [List.length_take]; omega)]
      rw [List.drop_eq_nil_of_le (by omega : data.length ≤ 7)]
      rw [List.getElem?_eq_none (by omega : data.length ≤ i)]
      simp
  · rcases Nat.lt_or_ge i data.length with hlen | hlen
    · rw [List.getElem?_append_right
        (by simp only [List.length_take]; omega)]
      rw [List.getElem?_map, List.getElem?_drop]
      rw [show 7 + (i - (data.take 7).length) = i from by
        simp only [List.length_take]; omega]
      cases hrow : data[i]? with
      | none => simp
      | some row =>
        simp only [hrow, Option.map_some', Option.some_bind, List.getElem?_map]
        cases hcell : row[j]? with
        | none => simp
        | some q => simp [hi]
    · rw [List.getElem?_append_right
        (by simp only [List.length_take]; omega)]
      rw [List.getElem?_map, List.getElem?_drop]
      rw [List.getElem?_eq_none (by simp only [List.length_take]; omega)]
      rw [List.getElem?_eq_none (by omega : data.length ≤ i)]
      simp

/-- C2 counterexample: the claim says every cell with value ≥ 0 is
rewritten, for every input grid.  On `dataEx` the cell (6, 0) has value
1 ≥ 0 yet survives the mask unchanged (row 6 lies in the never-scanned
first seven rows); only row 7 is rewritten. -/
theorem wipeout_row_skip_counterexample :
    cellAt (wipeoutGrid dataEx (-2)) 6 0 = some 1 ∧
    cellAt dataEx 6 0 = some 1 ∧
    (0 : ℚ) ≤ 1 ∧
    cellAt (wipeoutGrid dataEx (-2)) 7 0 = some (-2) := by
  refine ⟨by decide, by decide, by norm_num, by decide⟩

/-- C7 (amended): the two stages that open their output with Python mode
`'x'` — `overlay` and `wipeout_topo` — fail whenever the target path
already exists; `interpolate`, which writes through `np.savetxt`, does not
(see the counterexample: it silently overwrites). -/
theorem exclusive_write_law :
    (∀ (fs : FS) (topo bathy : List (List String)) (nan outfile : String),
        fs outfile = true →
        ∃ e, overlay fs topo bathy nan outfile = Except.error e) ∧
    (∀ (fs : FS) (data : List (List ℚ)) (val : ℚ) (outfile : String),
        fs outfile = true →
        ∃ e, wipeout_topo fs data val outfile = Except.error e) := by
  constructor
  · intro fs topo bathy nan outfile hfs
    cases h : overlayGridM topo bathy nan with
    | none => exact ⟨"IndexError", by simp [overlay, h]⟩
    | some merged =>
      exact ⟨"FileExistsError", by simp [overlay, h, openExclusive, hfs]⟩
  · intro fs data val outfile hfs
    exact ⟨"FileExistsError", by simp [wipeout_topo, openExclusive, hfs]⟩

/-- C7 (amended) witness: on a file system where the output path exists,
both `overlay` and `wipeout_topo` abort with an error. -/
theorem exclusive_write_law_witness :
    (∃ e, overlay fsFull [["a"]] [["b"]] "N" "o" = Except.error e) ∧
    (∃ e, wipeout_topo fsFull [[(1 : ℚ)]] (-2) "o" = Except.error e) :=
  ⟨exclusive_write_law.1 fsFull [["a"]] [["b"]] "N" "o" rfl,
   exclusive_write_law.2 fsFull [[(1 : ℚ)]] (-2) "o" rfl⟩

/-- C7 counterexample: the claim says every writing stage, `interpolate`
included, fails on an existing target.  `interpolate` writes through
`np.savetxt`, which opens its target in write mode: on a file system where
the path "o" already exists it still succeeds (silent overwrite). -/
theorem interpolate_overwrite_counterexample :
    fsFull "o" = true ∧
    interpolate fsFull r0 2 1 "o" = Except.ok (interpolateRaster r0 2 1) :=
  ⟨rfl, rfl⟩

/-- Whatever raster `interpolate` returns is the one built by
`interpolateRaster`. -/
theorem interpolate_ok_eq {fs : FS} {r : Raster} {a b : ℤ} {p : String}
    {out : Raster} (hok : interpolate fs r a b p = Except.ok out) :
    out = interpolateRaster r a b := by
  unfold interpolate at hok
  by_cases h1 : a < 1 ∨ b < 1
  · rw [if_pos h1] at hok
    cases hok
  · by_cases h2 : a < b
    · rw [if_neg h1, if_pos h2] at hok
      cases hok
    · rw [if_neg h1, if_neg h2] at hok
      simp only [savetxt, Except.map] at hok
      exact (Except.ok.inj hok).symm

/-- C3 (amended): `interpolate` emits the input header verbatim, so the
(header, grid) pair it produces is consistent exactly when the input's
declared counts already equal the scale-enlarged output dimensions — for a
consistent nonempty input and scale ≥ 2 the output pair is inconsistent. -/
theorem interpolate_header_verbatim (fs : FS) (r : Raster) (a b : ℤ)
    (p : String) (out : Raster)
    (hok : interpolate fs r a b p = Except.ok out) :
    out.header = r.header ∧
    (consistent out ↔
      (r.header.nrows = r.rows * interpScale a b ∧
       r.header.ncols = r.cols * interpScale a b)) := by
  rw [interpolate_ok_eq hok]
  exact ⟨rfl, Iff.rfl⟩

/-- C3 (amended) witness: the header of the 2×-interpolated `r0` is `r0`'s
own header. -/
theorem interpolate_header_verbatim_witness :
    (interpolateRaster r0 2 1).header = r0.header ∧
    (consistent (interpolateRaster r0 2 1) ↔
      (r0.header.nrows = r0.rows * interpScale 2 1 ∧
       r0.header.ncols = r0.cols * interpScale 2 1)) :=
  interpolate_header_verbatim fsEmpty r0 2 1 "o" (interpolateRaster r0 2 1) rfl

/-- C3 counterexample: the claim says every produced raster has header
counts matching its grid.  `r0` is consistent (2×2 declared and actual);
interpolating it with `res_in = 2, res_out = 1` succeeds and produces a
4×4 grid still headed by the 2×2 header — an inconsistent pair. -/
theorem interpolate_header_inconsistent_counterexample :
    consistent r0 ∧
    interpolate fsEmpty r0 2 1 "o" = Except.ok (interpolateRaster r0 2 1) ∧
    ¬ consistent (interpolateRaster r0 2 1) := by
  refine ⟨by decide, rfl, by decide⟩

/-- C4: `interpolate` fails (and is then all its output) if and only if the
resolutions imply downsampling (`res_in < res_out`) or one of them is not a
positive whole number (`< 1` as an integer); in particular
`res_in = 3, res_out = 60` raises. -/
theorem interpolate_invalid_resolution_iff (fs : FS) (r : Raster) (a b : ℤ)
    (p : String) :
    ((∃ e, interpolate fs r a b p = Except.error e) ↔
      (a < b ∨ a < 1 ∨ b < 1)) ∧
    (∃ e, interpolate fs r 3 60 p = Except.error e) := by
  constructor
  · constructor
    · rintro ⟨e, he⟩
      unfold interpolate at he
      split_ifs at he with h1 h2
      · exact Or.inr h1
      · exact Or.inl h2
      · simp [savetxt, Except.map] at he
    · intro h
      unfold interpolate
      split_ifs with h1 h2
      · exact ⟨_, rfl⟩
      · exact ⟨_, rfl⟩
      · exfalso
        rcases h with h | h | h
        · exact h2 h
        · exact h1 (Or.inl h)
        · exact h1 (Or.inr h)
  · exact ⟨_, rfl⟩

/-- C6: the grid produced by a successful `interpolate` has exactly
`rows * (res_in // res_out)` rows and `cols * (res_in // res_out)`
columns (`Int.fdiv` is Python's floor division `//`). -/
theorem interpolate_output_shape (fs : FS) (r : Raster) (a b : ℤ) (p : String)
    (out : Raster) (hok : interpolate fs r a b p = Except.ok out) :
    out.rows = r.rows * (Int.fdiv a b).toNat ∧
    out.cols = r.cols * (Int.fdiv a b).toNat := by
  rw [interpolate_ok_eq hok]
  exact ⟨rfl, rfl⟩

/-- C6 witness: interpolating the 2×2 raster `r0` from 2 arc-seconds to 1
arc-second gives a grid of 2·(2//1) = 4 rows and 4 columns. -/
theorem interpolate_output_shape_witness :
    (interpolateRaster r0 2 1).rows = r0.rows * (Int.fdiv 2 1).toNat ∧
    (interpolateRaster r0 2 1).cols = r0.cols * (Int.fdiv 2 1).toNat :=
  interpolate_output_shape fsEmpty r0 2 1 "o" (interpolateRaster r0 2 1) rfl

/-- C10: `interpolate` reads every grid token through `int(float(token))`,
so its entire output depends on the input tokens only through their
truncation toward zero: two rasters whose tokens truncate identically
interpolate to identical results, whatever fractional parts they carry. -/
theorem interpolate_truncation_invariance (fs : FS) (r1 r2 : Raster)
    (a b : ℤ) (p : String) (hh : r1.header = r2.header)
    (hr : r1.rows = r2.rows) (hc : r1.cols = r2.cols)
    (ht : ∀ i j, truncTowardZero (r1.tokens i j) =
      truncTowardZero (r2.tokens i j)) :
    interpolate fs r1 a b p = interpolate fs r2 a b p := by
  have hd : (fun i j => ((truncTowardZero (r1.tokens i j) : ℤ) : ℚ)) =
      fun i j => ((truncTowardZero (r2.tokens i j) : ℤ) : ℚ) := by
    funext i j
    rw [ht]
  have hR : interpolateRaster r1 a b = interpolateRaster r2 a b := by
    unfold interpolateRaster
    rw [hh, hr, hc, hd]
  unfold interpolate
  rw [hR]

/-- C10 witness: `rHalf` (all tokens 3/2) and `rOne` (all tokens 1) have
identical truncations, and interpolate to the very same output. -/
theorem interpolate_truncation_invariance_witness :
    interpolate fsEmpty rHalf 2 1 "o" = interpolate fsEmpty rOne 2 1 "o" :=
  interpolate_truncation_invariance fsEmpty rHalf rOne 2 1 "o" rfl rfl rfl
    fun i j => by
      show truncTowardZero (3 / 2 : ℚ) = truncTowardZero (1 : ℚ)
      norm_num [truncTowardZero]
      decide

/-- `cellBase` at an integer lattice coordinate. -/
theorem cellBase_natCast (n k : ℕ) : cellBase n (k : ℚ) = min k (n - 2) := by
  simp [cellBase, Int.floor_natCast]

/-- At a lattice coordinate `k < n` the cell either starts at `k` with local
offset 0, or (for `k = n - 1`, clamped) ends at `k` with local offset 1. -/
theorem cellBase_cases (n k : ℕ) (hn : 2 ≤ n) (hk : k < n) :
    (cellBase n (k : ℚ) = k ∧ ((k : ℚ) - (cellBase n (k : ℚ) : ℕ)) = 0) ∨
    (cellBase n (k : ℚ) + 1 = k ∧ ((k : ℚ) - (cellBase n (k : ℚ) : ℕ)) = 1) := by
  rw [cellBase_natCast]
  rcases Nat.lt_or_ge k (n - 1) with h | h
  · left
    have hmin : min k (n - 2) = k := by omega
    rw [hmin]
    exact ⟨rfl, by ring⟩
  · right
    have hk1 : k = n - 1 := by omega
    have hmin : min k (n - 2) = n - 2 := by omega
    rw [hmin]
    refine ⟨by omega, ?_⟩
    subst hk1
    rw [Nat.cast_sub (by omega : 1 ≤ n), Nat.cast_sub (by omega : 2 ≤ n)]
    ring

/-- The sample-to-lattice transform sends the `k`-th sample position to the
lattice coordinate `k`. -/
theorem toIndex_samplePos (n k : ℕ) (hn : 2 ≤ n) :
    toIndex n (samplePos n k) = (k : ℚ) := by
  have h2 : (2 : ℚ) ≤ (n : ℚ) := by exact_mod_cast hn
  have h1 : (n : ℚ) - 1 ≠ 0 := by linarith
  have h0 : (n : ℚ) ≠ 0 := by linarith
  unfold toIndex samplePos
  field_simp

/-- Piecewise-linear interpolation on the lattice is exact at every lattice
node: whichever triangle of the split contains the node has the node as a
vertex, so its barycentric weight is 1. -/
theorem triInterp_node (d : ℕ → ℕ → ℚ) (x y k l : ℕ) (hx : 2 ≤ x)
    (hy : 2 ≤ y) (hk : k < x) (hl : l < y) :
    triInterp d x y (k : ℚ) (l : ℚ) = d k l := by
  unfold triInterp
  rcases cellBase_cases x k hx hk with ⟨hi, ha⟩ | ⟨hi, ha⟩ <;>
    rcases cellBase_cases y l hy hl with ⟨hj, hb⟩ | ⟨hj, hb⟩
  · rw [ha, hb, if_pos (by norm_num : ((0 : ℚ) + 0 ≤ 1)), hi, hj]
    ring
  · rw [ha, hb, if_pos (by norm_num : ((0 : ℚ) + 1 ≤ 1)), hi, hj]
    ring
  · rw [ha, hb, if_pos (by norm_num : ((1 : ℚ) + 0 ≤ 1)), hi, hj]
    ring
  · rw [ha, hb, if_neg (by norm_num : ¬((1 : ℚ) + 1 ≤ 1)), hi, hj]
    ring

/-- C5: wherever a query position of the resampling grid coincides exactly
with an original sample position, the value `interpolate` produces there is
the original grid value at that sample (the `int(float(.))`-parsed token,
cf. C10): linear interpolation is exact at sample nodes. -/
theorem interpolate_exact_at_nodes (fs : FS) (r : Raster) (a b : ℤ)
    (p : String) (out : Raster)
    (hok : interpolate fs r a b p = Except.ok out)
    (hx : 2 ≤ r.rows) (hy : 2 ≤ r.cols) (k l m n : ℕ)
    (hk : k < r.rows) (hl : l < r.cols)
    (hm : queryPos r.rows (r.rows * interpScale a b) m = samplePos r.rows k)
    (hn : queryPos r.cols (r.cols * interpScale a b) n = samplePos r.cols l) :
    out.tokens m n = ((truncTowardZero (r.tokens k l) : ℤ) : ℚ) := by
  rw [interpolate_ok_eq hok]
  show griddataLinear (fun i j => ((truncTowardZero (r.tokens i j) : ℤ) : ℚ))
      r.rows r.cols
      (queryPos r.rows (r.rows * interpScale a b) m)
      (queryPos r.cols (r.cols * interpScale a b) n) = _
  rw [hm, hn]
  unfold griddataLinear
  rw [toIndex_samplePos r.rows k hx, toIndex_samplePos r.cols l hy]
  exact triInterp_node _ r.rows r.cols k l hx hy hk hl

/-- C5 witness: resampling the 2×2 raster `r0` at scale 2 puts query point
(3, 3) exactly on sample node (1, 1), and the output there is the node's
value 11. -/
theorem interpolate_exact_at_nodes_witness :
    (interpolateRaster r0 2 1).tokens 3 3 =
      ((truncTowardZero (r0.tokens 1 1) : ℤ) : ℚ) :=
  interpolate_exact_at_nodes fsEmpty r0 2 1 "o" (interpolateRaster r0 2 1) rfl
    (by decide) (by decide) 1 1 3 3 (by decide) (by decide)
    (by
      show queryPos 2 4 3 = samplePos 2 1
      unfold queryPos samplePos
      norm_num)
    (by
      show queryPos 2 4 3 = samplePos 2 1
      unfold queryPos samplePos
      norm_num)

/-- C9: `slice_region` always crops the topography with the extent of the
already-cropped bathymetry — the extent resulting from the first crop —
whatever the filter coordinates; and this is not the same as cropping with
the originally requested filter (there are crop/extent collaborators for
which the two differ). -/
theorem slice_region_extent_law :
    (∀ {R B : Type} (crop : R → B → R) (extent : R → B)
        (bathy_file topo_file : R) (f : B),
      (slice_region crop extent bathy_file topo_file f).2 =
        crop topo_file (extent (crop bathy_file f)) ∧
      (slice_region crop extent bathy_file topo_file f).1 =
        crop bathy_file f) ∧
    ¬ (∀ (crop : ℕ → ℕ → ℕ) (extent : ℕ → ℕ) (bathy_file topo_file f : ℕ),
        (slice_region crop extent bathy_file topo_file f).2 =
          crop topo_file f) := by
  constructor
  · intro R B crop extent bathy_file topo_file f
    exact ⟨rfl, rfl⟩
  · intro h
    have hbad := h (fun r b => r + b) (fun r => r + 1) 0 0 0
    simp [slice_region] at hbad

end HighResMerge
